import Mathlib

/-!
Shallow embedding of `crates/freeze/src/types/sources.rs` (the `Fetcher`
request-execution core of the cryo data-extraction client), together with
proofs about its retry executor, admission gate and operation surface.

The embedding models:
* the optional semaphore / rate-limiter admission gate (`Fetcher.permit_request`),
* the optional retry executor built on `tokio_retry::Retry::spawn`
  (`Fetcher.execute_request`), where a retry strategy is embedded as the
  list of backoff durations yielded by the `Take<ExponentialBackoff>` iterator,
* error normalisation (`Fetcher.map_err`, `CollectError.ProviderError`),
* the eleven RPC operations exposed by `Fetcher`.

Side effects are made observable: each operation returns, besides its
result, the number of provider invocations it performed and a chronological
trace of events (semaphore acquisition, rate-limiter wait, provider calls,
backoff sleeps).  A provider method is embedded as a function from the
call's parameters and the invocation index (how many times the action has
already run) to an outcome, so that distinct invocations of the same
retryable action may yield different results, as over a real network.
-/

namespace Cryo

/-- Opaque payload types decoded by the transport layer (ethers).  Their
structure is irrelevant to this layer, which never inspects them; they are
embedded as natural numbers so that everything stays executable. -/
abbrev Filter := Nat

/-- A decoded log entry. -/
abbrev Log := Nat

/-- A transaction hash. -/
abbrev TxHash := Nat

/-- A decoded transaction. -/
abbrev Transaction := Nat

/-- A decoded transaction receipt. -/
abbrev TransactionReceipt := Nat

/-- A block number selector. -/
abbrev BlockNumber := Nat

/-- A requested trace kind. -/
abbrev TraceType := Nat

/-- A structured replay trace result. -/
abbrev BlockTrace := Nat

/-- A decoded trace record. -/
abbrev Trace := Nat

/-- The chain-head height returned by `get_block_number`. -/
abbrev U64 := Nat

/-- A decoded block, parametric in its transaction representation
(`Block<TxHash>` vs `Block<Transaction>`). -/
structure Block (TX : Type) where
  number : Nat
  transactions : List TX
  deriving DecidableEq, Repr

/-- Transport-level error produced by the provider (ethers `ProviderError`).
Its payload is abstract; a numeric code keeps it executable and lets
distinct errors be told apart. -/
structure ProviderError where
  code : Nat
  deriving DecidableEq, Repr

/-- The domain error type of the freeze crate (`CollectError`); this layer
only ever produces its `ProviderError` variant, via `Fetcher::map_err`. -/
inductive CollectError where
  | ProviderError (e : Cryo.ProviderError)
  deriving DecidableEq, Repr

/-- `tokio::sync::AcquireError`: returned by `Semaphore::acquire` when the
semaphore has been closed. -/
inductive AcquireError where
  | closed
  deriving DecidableEq, Repr

/-- `tokio::sync::Semaphore`: a counting semaphore.  `permits` is the
configured permit count; `closed` records whether the semaphore has been
closed.  The sequential embedding of `acquire` below abstracts the waiting
(a caller blocked on an exhausted semaphore simply has not yet completed
`acquire`); the bounded-concurrency behaviour of waiting is modelled
separately by the `GateStep` transition system. -/
structure Semaphore where
  permits : Nat
  closed : Bool
  deriving DecidableEq, Repr

/-- Completed outcome of `Semaphore::acquire().await`: an `AcquireError` if
the semaphore is closed, otherwise a permit (embedded as `Unit`; holding
and dropping are modelled by `GateStep`). -/
def Semaphore.acquire (s : Semaphore) : Except AcquireError Unit :=
  if s.closed then Except.error AcquireError.closed else Except.ok ()

/-- The governor-based rate limiter (`RateLimiter` type alias in the
source).  Only its presence matters to this layer: `until_ready` is a pure
wait, recorded as an event. -/
structure RateLimiter where
  quota : Nat
  deriving DecidableEq, Repr

/-- Observable events of one `Fetcher` operation, in chronological order. -/
inductive FetchEvent where
  /-- `semaphore.acquire().await` was performed. -/
  | acquireSem
  /-- `limiter.until_ready().await` was performed. -/
  | waitRateLimiter
  /-- the retryable action ran its `attempt`-th provider invocation (0-based). -/
  | callProvider (attempt : Nat)
  /-- the executor slept for backoff duration `d` (milliseconds). -/
  | backoff (d : Nat)
  deriving DecidableEq, Repr

/-- Is this event one of the two admission-gate waits? -/
def isGateEvent : FetchEvent → Bool
  | FetchEvent.acquireSem => true
  | FetchEvent.waitRateLimiter => true
  | FetchEvent.callProvider _ => false
  | FetchEvent.backoff _ => false

/-- Behavioural interface of `Provider<P>` as used by `Fetcher`
(`P: JsonRpcClient`): one async method per RPC operation.  Each method maps
the call's parameters and the invocation index to the outcome of that
invocation, so a retried action may observe different results on different
attempts. -/
structure Provider where
  get_logs : Filter → Nat → Except ProviderError (List Log)
  trace_replay_block_transactions :
    BlockNumber → List TraceType → Nat → Except ProviderError (List BlockTrace)
  trace_replay_transaction :
    TxHash → List TraceType → Nat → Except ProviderError BlockTrace
  get_transaction : TxHash → Nat → Except ProviderError (Option Transaction)
  get_transaction_receipt :
    TxHash → Nat → Except ProviderError (Option TransactionReceipt)
  get_block : Nat → Nat → Except ProviderError (Option (Block TxHash))
  get_block_with_txs : Nat → Nat → Except ProviderError (Option (Block Transaction))
  get_block_receipts : Nat → Nat → Except ProviderError (List TransactionReceipt)
  trace_block : BlockNumber → Nat → Except ProviderError (List Trace)
  trace_transaction : TxHash → Nat → Except ProviderError (List Trace)
  get_block_number : Nat → Except ProviderError U64

/-- The `Fetcher<P>` struct: provider handle, optional concurrency
semaphore, optional rate limiter, optional retry strategy.  The
`retry_strategy` field (`Option<Take<ExponentialBackoff>>` in the source)
is embedded as the finite list of backoff durations (milliseconds) the
truncated iterator yields. -/
structure Fetcher where
  provider : Provider
  semaphore : Option Semaphore
  rate_limiter : Option RateLimiter
  retry_strategy : Option (List Nat)

/-- The retry loop of `tokio_retry::Retry::spawn`: run the action; on
success return immediately; on error, if the strategy iterator yields
another backoff duration, sleep and retry, otherwise return the error just
observed.  Returns the final outcome, the number of invocations performed,
and the event trace.  `i` is the index of the invocation about to run. -/
def retryGo {T : Type} (act : Nat → Except ProviderError T) :
    List Nat → Nat → Except ProviderError T × Nat × List FetchEvent
  | [], i =>
    match act i with
    | Except.ok v => (Except.ok v, 1, [FetchEvent.callProvider i])
    | Except.error e => (Except.error e, 1, [FetchEvent.callProvider i])
  | d :: rest, i =>
    match act i with
    | Except.ok v => (Except.ok v, 1, [FetchEvent.callProvider i])
    | Except.error _ =>
      let r := retryGo act rest (i + 1)
      (r.1, r.2.1 + 1, FetchEvent.callProvider i :: FetchEvent.backoff d :: r.2.2)

/-- `tokio_retry::Retry::spawn(retry_strategy, action).await`: one initial
attempt plus at most one further attempt per backoff duration yielded by
the strategy. -/
def Retry.spawn {T : Type} (strategy : List Nat)
    (act : Nat → Except ProviderError T) :
    Except ProviderError T × Nat × List FetchEvent :=
  retryGo act strategy 0

/-- The attempt budget of a retry strategy: `Retry::spawn` makes one
initial attempt plus one retry per backoff duration the truncated iterator
yields, so a strategy holding `n` durations admits `n + 1` invocations.
This is the "max attempts K" of the specification's retry-policy contract. -/
def maxAttempts (strategy : List Nat) : Nat := strategy.length + 1

namespace Fetcher

/-- `Fetcher::map_err`: wrap a transport outcome into the domain error type
(`res.map_err(CollectError::ProviderError)`). -/
def map_err {T : Type} : Except ProviderError T → Except CollectError T
  | Except.ok v => Except.ok v
  | Except.error e => Except.error (CollectError.ProviderError e)

/-- Outcome of `Fetcher::execute_request`: domain result, number of
provider invocations, executor event trace. -/
structure ExecOutcome (T : Type) where
  result : Except CollectError T
  invocations : Nat
  events : List FetchEvent
  deriving Repr

/-- `Fetcher::execute_request`: clone the stored retry strategy; with a
strategy, run the action under `Retry::spawn`; without one, run the action
exactly once; in both cases normalise the outcome through `map_err`. -/
def execute_request {T : Type} (f : Fetcher) (act : Nat → Except ProviderError T) :
    ExecOutcome T :=
  let retry_strategy := f.retry_strategy
  match retry_strategy with
  | some strategy =>
    let r := Retry.spawn strategy act
    { result := map_err r.1, invocations := r.2.1, events := r.2.2 }
  | none =>
    { result := map_err (act 0), invocations := 1,
      events := [FetchEvent.callProvider 0] }

/-- `Fetcher::permit_request`: if a semaphore is configured, await a permit
from it (recording the acquisition); then, if a rate limiter is configured,
await `until_ready` (recording the wait); return the optional acquisition
outcome.  Mirrors the source exactly: the acquisition outcome is returned
to the caller unexamined. -/
def permit_request (f : Fetcher) :
    Option (Except AcquireError Unit) × List FetchEvent :=
  let pe : Option (Except AcquireError Unit) × List FetchEvent :=
    match f.semaphore with
    | some s => (some s.acquire, [FetchEvent.acquireSem])
    | none => (none, [])
  let ev2 : List FetchEvent :=
    match f.rate_limiter with
    | some _ => [FetchEvent.waitRateLimiter]
    | none => []
  (pe.1, pe.2 ++ ev2)

/-- Outcome of one `Fetcher` operation: the fetcher after the call (the
operations take `&self`, and `execute_request` clones the retry strategy,
so the configuration fields come back unchanged), the domain result, the
number of provider invocations, and the chronological event trace. -/
structure OpOutcome (T : Type) where
  fetcher : Fetcher
  result : Except CollectError T
  invocations : Nat
  events : List FetchEvent

/-- Assemble an operation's outcome from the gate trace and the executor
outcome.  The permit value `_permit` is bound and dropped at the end of the
operation, exactly as in the source, where its `Result` is never examined. -/
def opOutcome {T : Type} (f : Fetcher)
    (gate : Option (Except AcquireError Unit) × List FetchEvent)
    (ex : ExecOutcome T) : OpOutcome T :=
  let _permit := gate.1
  { fetcher := f, result := ex.result, invocations := ex.invocations,
    events := gate.2 ++ ex.events }

/-- `Fetcher::get_logs`. -/
def get_logs (f : Fetcher) (filter : Filter) : OpOutcome (List Log) :=
  opOutcome f f.permit_request (f.execute_request (f.provider.get_logs filter))

/-- `Fetcher::trace_replay_block_transactions`. -/
def trace_replay_block_transactions (f : Fetcher) (block : BlockNumber)
    (trace_types : List TraceType) : OpOutcome (List BlockTrace) :=
  opOutcome f f.permit_request
    (f.execute_request (f.provider.trace_replay_block_transactions block trace_types))

/-- `Fetcher::trace_replay_transaction`. -/
def trace_replay_transaction (f : Fetcher) (tx_hash : TxHash)
    (trace_types : List TraceType) : OpOutcome BlockTrace :=
  opOutcome f f.permit_request
    (f.execute_request (f.provider.trace_replay_transaction tx_hash trace_types))

/-- `Fetcher::get_transaction`. -/
def get_transaction (f : Fetcher) (tx_hash : TxHash) :
    OpOutcome (Option Transaction) :=
  opOutcome f f.permit_request
    (f.execute_request (f.provider.get_transaction tx_hash))

/-- `Fetcher::get_transaction_receipt`. -/
def get_transaction_receipt (f : Fetcher) (tx_hash : TxHash) :
    OpOutcome (Option TransactionReceipt) :=
  opOutcome f f.permit_request
    (f.execute_request (f.provider.get_transaction_receipt tx_hash))

/-- `Fetcher::get_block`. -/
def get_block (f : Fetcher) (block_num : Nat) :
    OpOutcome (Option (Block TxHash)) :=
  opOutcome f f.permit_request
    (f.execute_request (f.provider.get_block block_num))

/-- `Fetcher::get_block_with_txs`. -/
def get_block_with_txs (f : Fetcher) (block_num : Nat) :
    OpOutcome (Option (Block Transaction)) :=
  opOutcome f f.permit_request
    (f.execute_request (f.provider.get_block_with_txs block_num))

/-- `Fetcher::get_block_receipts`. -/
def get_block_receipts (f : Fetcher) (block_num : Nat) :
    OpOutcome (List TransactionReceipt) :=
  opOutcome f f.permit_request
    (f.execute_request (f.provider.get_block_receipts block_num))

/-- `Fetcher::trace_block`. -/
def trace_block (f : Fetcher) (block_num : BlockNumber) : OpOutcome (List Trace) :=
  opOutcome f f.permit_request
    (f.execute_request (f.provider.trace_block block_num))

/-- `Fetcher::trace_transaction`. -/
def trace_transaction (f : Fetcher) (tx_hash : TxHash) : OpOutcome (List Trace) :=
  opOutcome f f.permit_request
    (f.execute_request (f.provider.trace_transaction tx_hash))

/-- `Fetcher::get_block_number`: the one operation that does not call
`permit_request` before executing. -/
def get_block_number (f : Fetcher) : OpOutcome U64 :=
  let ex := f.execute_request f.provider.get_block_number
  { fetcher := f, result := ex.result, invocations := ex.invocations,
    events := ex.events }

end Fetcher

/-- `Source`: pure configuration record pairing a shared `Fetcher` handle
with chain identity and chunking parameters for the external scheduler. -/
structure Source where
  fetcher : Fetcher
  chain_id : Nat
  inner_request_size : Nat
  max_concurrent_chunks : Nat

/-!
Concurrency model of the admission semaphore.  Each `Fetcher` operation
holds its `_permit` (a `SemaphorePermit` from the `tokio::sync::Semaphore`
configured with `N` permits) from `permit_request` until the operation
returns, when the permit drops and returns to the semaphore.  The
interleaving of concurrent operations is modelled as a transition system:
a task is idle, waiting on `semaphore.acquire()`, holding a permit, or
done; `acquire` completes only while a permit is available.
-/

/-- The phase of one concurrent `Fetcher` operation with respect to the
admission semaphore. -/
inductive TaskState where
  /-- not yet entered `permit_request` -/
  | idle
  /-- suspended in `semaphore.acquire().await` -/
  | waiting
  /-- holding a `SemaphorePermit` (network call in flight) -/
  | holding
  /-- returned; the permit has been dropped -/
  | done
  deriving DecidableEq, Repr

/-- Global state of the admission semaphore and its client tasks:
`avail` permits currently available, and the phase of each task. -/
structure GateState where
  avail : Nat
  tasks : List TaskState
  deriving DecidableEq, Repr

/-- Number of tasks currently holding a permit. -/
def countHolding (ts : List TaskState) : Nat :=
  ts.countP (fun t => decide (t = TaskState.holding))

/-- One interleaving step of the semaphore system: a task enters
`permit_request` and begins waiting; a waiting task completes `acquire`,
which consumes an available permit (only possible while one is available);
a holding task returns from its operation, dropping the permit back. -/
inductive GateStep : GateState → GateState → Prop where
  | start (s : GateState) (i : Nat)
      (h : s.tasks.get? i = some TaskState.idle) :
      GateStep s ⟨s.avail, s.tasks.set i TaskState.waiting⟩
  | acquire (s : GateState) (i : Nat)
      (h : s.tasks.get? i = some TaskState.waiting) (ha : 0 < s.avail) :
      GateStep s ⟨s.avail - 1, s.tasks.set i TaskState.holding⟩
  | release (s : GateState) (i : Nat)
      (h : s.tasks.get? i = some TaskState.holding) :
      GateStep s ⟨s.avail + 1, s.tasks.set i TaskState.done⟩

/-- Initial state of a `Fetcher` whose semaphore was built with `N`
permits, with `k` operations about to run. -/
def gateInit (N k : Nat) : GateState :=
  ⟨N, List.replicate k TaskState.idle⟩

/-!
Concrete providers and fetchers used to instantiate the theorems below on
executable inputs.
-/

/-- A provider whose every method succeeds on every invocation; lookups
report absence (`none`). -/
def okProvider : Provider where
  get_logs := fun _ _ => Except.ok [5]
  trace_replay_block_transactions := fun _ _ _ => Except.ok [1]
  trace_replay_transaction := fun _ _ _ => Except.ok 2
  get_transaction := fun _ _ => Except.ok none
  get_transaction_receipt := fun _ _ => Except.ok none
  get_block := fun _ _ => Except.ok none
  get_block_with_txs := fun _ _ => Except.ok none
  get_block_receipts := fun _ _ => Except.ok []
  trace_block := fun _ _ => Except.ok []
  trace_transaction := fun _ _ => Except.ok []
  get_block_number := fun _ => Except.ok 100

/-- A provider whose every method fails on every invocation, with an error
code recording the invocation index. -/
def failProvider : Provider where
  get_logs := fun _ i => Except.error ⟨i⟩
  trace_replay_block_transactions := fun _ _ i => Except.error ⟨i⟩
  trace_replay_transaction := fun _ _ i => Except.error ⟨i⟩
  get_transaction := fun _ i => Except.error ⟨i⟩
  get_transaction_receipt := fun _ i => Except.error ⟨i⟩
  get_block := fun _ i => Except.error ⟨i⟩
  get_block_with_txs := fun _ i => Except.error ⟨i⟩
  get_block_receipts := fun _ i => Except.error ⟨i⟩
  trace_block := fun _ i => Except.error ⟨i⟩
  trace_transaction := fun _ i => Except.error ⟨i⟩
  get_block_number := fun i => Except.error ⟨i⟩

/-- A fetcher whose semaphore has been closed: `acquire` fails, and the
operations discard that failure.  No retry policy. -/
def closedSemFetcher : Fetcher where
  provider := okProvider
  semaphore := some ⟨2, true⟩
  rate_limiter := none
  retry_strategy := none

/-- A fetcher with both admission sub-gates configured and no retry
policy. -/
def plainFetcher : Fetcher where
  provider := okProvider
  semaphore := some ⟨2, false⟩
  rate_limiter := some ⟨100⟩
  retry_strategy := none

/-- A fetcher with a two-step backoff strategy (attempt budget 3) over the
always-failing provider. -/
def retryFetcher : Fetcher where
  provider := failProvider
  semaphore := none
  rate_limiter := none
  retry_strategy := some [10, 20]

/-!  Lemmas about the retry loop. -/

lemma retryGo_ok {T : Type} (act : Nat → Except ProviderError T) (v : T)
    (s : List Nat) (i : Nat) (h : act i = Except.ok v) :
    retryGo act s i = (Except.ok v, 1, [FetchEvent.callProvider i]) := by
  cases s <;> simp [retryGo, h]

lemma retryGo_error_nil {T : Type} (act : Nat → Except ProviderError T)
    (e : ProviderError) (i : Nat) (h : act i = Except.error e) :
    retryGo act [] i = (Except.error e, 1, [FetchEvent.callProvider i]) := by
  simp [retryGo, h]

lemma retryGo_error_cons {T : Type} (act : Nat → Except ProviderError T)
    (e : ProviderError) (d : Nat) (rest : List Nat) (i : Nat)
    (h : act i = Except.error e) :
    retryGo act (d :: rest) i =
      ((retryGo act rest (i + 1)).1, (retryGo act rest (i + 1)).2.1 + 1,
        FetchEvent.callProvider i :: FetchEvent.backoff d ::
          (retryGo act rest (i + 1)).2.2) := by
  simp [retryGo, h]

/-- When every invocation fails, the retry loop performs one invocation per
available attempt and returns the error from the final one. -/
lemma retryGo_allFail {T : Type} (act : Nat → Except ProviderError T)
    (e : Nat → ProviderError) (h : ∀ i, act i = Except.error (e i)) :
    ∀ (s : List Nat) (i : Nat),
      (retryGo act s i).1 = Except.error (e (i + s.length)) ∧
      (retryGo act s i).2.1 = s.length + 1 := by
  intro s
  induction s with
  | nil => intro i; rw [retryGo_error_nil act (e i) i (h i)]; simp
  | cons d rest ih =>
    intro i
    have hidx : (i + 1) + rest.length = i + (rest.length + 1) := by omega
    have ih' := ih (i + 1)
    rw [hidx] at ih'
    rw [retryGo_error_cons act (e i) d rest i (h i)]
    exact ⟨by simpa using ih'.1, by simp [ih'.2]⟩

/-- When invocations `i, …, i+n-1` fail and invocation `i+n` succeeds with
`v`, the retry loop returns `v` after exactly `n + 1` invocations, provided
the strategy affords at least `n` retries. -/
lemma retryGo_firstSuccess {T : Type} (act : Nat → Except ProviderError T)
    (v : T) :
    ∀ (n : Nat) (s : List Nat) (i : Nat), n ≤ s.length →
      (∀ m, m < n → ∃ em, act (i + m) = Except.error em) →
      act (i + n) = Except.ok v →
      (retryGo act s i).1 = Except.ok v ∧ (retryGo act s i).2.1 = n + 1 := by
  intro n
  induction n with
  | zero =>
    intro s i _ _ hsucc
    rw [retryGo_ok act v s i (by simpa using hsucc)]
    exact ⟨rfl, rfl⟩
  | succ n ih =>
    intro s i hn hfail hsucc
    obtain ⟨e0, he0⟩ := hfail 0 (Nat.succ_pos n)
    rw [Nat.add_zero] at he0
    cases s with
    | nil => simp at hn
    | cons d rest =>
      have hn' : n ≤ rest.length := by simpa using hn
      have hfail' : ∀ m, m < n → ∃ em, act ((i + 1) + m) = Except.error em := by
        intro m hm
        obtain ⟨em, hem⟩ := hfail (m + 1) (by omega)
        exact ⟨em, by rw [show (i + 1) + m = i + (m + 1) by omega]; exact hem⟩
      have hsucc' : act ((i + 1) + n) = Except.ok v := by
        rw [show (i + 1) + n = i + (n + 1) by omega]; exact hsucc
      have ihr := ih rest (i + 1) hn' hfail' hsucc'
      rw [retryGo_error_cons act e0 d rest i he0]
      exact ⟨ihr.1, by simp [ihr.2]⟩

/-- The retry loop performs at least one invocation, and its final outcome
is exactly the outcome of its final invocation. -/
lemma retryGo_last {T : Type} (act : Nat → Except ProviderError T) :
    ∀ (s : List Nat) (i : Nat),
      1 ≤ (retryGo act s i).2.1 ∧
      (∀ v, (retryGo act s i).1 = Except.ok v →
        act (i + ((retryGo act s i).2.1 - 1)) = Except.ok v) ∧
      (∀ e, (retryGo act s i).1 = Except.error e →
        act (i + ((retryGo act s i).2.1 - 1)) = Except.error e) := by
  intro s
  induction s with
  | nil =>
    intro i
    cases h : act i with
    | ok v =>
      rw [retryGo_ok act v [] i h]
      refine ⟨Nat.le_refl 1, ?_, ?_⟩
      · intro v' hv'; cases hv'; simpa using h
      · intro e he; cases he
    | error e =>
      rw [retryGo_error_nil act e i h]
      refine ⟨Nat.le_refl 1, ?_, ?_⟩
      · intro v' hv'; cases hv'
      · intro e' he'; cases he'; simpa using h
  | cons d rest ih =>
    intro i
    cases h : act i with
    | ok v =>
      rw [retryGo_ok act v (d :: rest) i h]
      refine ⟨Nat.le_refl 1, ?_, ?_⟩
      · intro v' hv'; cases hv'; simpa using h
      · intro e he; cases he
    | error e =>
      have ihr := ih (i + 1)
      rw [retryGo_error_cons act e d rest i h]
      have harith : ∀ x : Nat, 1 ≤ x → i + (x + 1 - 1) = (i + 1) + (x - 1) := by
        intro x hx; omega
      have hidx : i + ((retryGo act rest (i + 1)).2.1 + 1 - 1)
          = (i + 1) + ((retryGo act rest (i + 1)).2.1 - 1) :=
        harith _ ihr.1
      refine ⟨Nat.succ_le_succ (Nat.zero_le _), ?_, ?_⟩
      · intro v' hv'
        simp only [hidx]
        exact ihr.2.1 v' hv'
      · intro e' he'
        simp only [hidx]
        exact ihr.2.2 e' he'

/-- Every event trace of the retry loop begins with its first provider
invocation. -/
lemma retryGo_events_head {T : Type} (act : Nat → Except ProviderError T)
    (s : List Nat) (i : Nat) :
    ∃ tl, (retryGo act s i).2.2 = FetchEvent.callProvider i :: tl := by
  cases s with
  | nil =>
    cases h : act i with
    | ok v => rw [retryGo_ok act v [] i h]; exact ⟨[], rfl⟩
    | error e => rw [retryGo_error_nil act e i h]; exact ⟨[], rfl⟩
  | cons d rest =>
    cases h : act i with
    | ok v => rw [retryGo_ok act v (d :: rest) i h]; exact ⟨[], rfl⟩
    | error e =>
      rw [retryGo_error_cons act e d rest i h]
      exact ⟨_, rfl⟩

/-- The retry loop emits only provider-call and backoff events, never
admission-gate events. -/
lemma retryGo_events_no_gate {T : Type} (act : Nat → Except ProviderError T) :
    ∀ (s : List Nat) (i : Nat) (ev : FetchEvent),
      ev ∈ (retryGo act s i).2.2 → isGateEvent ev = false := by
  intro s
  induction s with
  | nil =>
    intro i ev hev
    cases h : act i with
    | ok v => rw [retryGo_ok act v [] i h] at hev; simp at hev; subst hev; rfl
    | error e => rw [retryGo_error_nil act e i h] at hev; simp at hev; subst hev; rfl
  | cons d rest ih =>
    intro i ev hev
    cases h : act i with
    | ok v => rw [retryGo_ok act v (d :: rest) i h] at hev; simp at hev; subst hev; rfl
    | error e =>
      rw [retryGo_error_cons act e d rest i h] at hev
      simp only [List.mem_cons] at hev
      rcases hev with rfl | rfl | hev
      · rfl
      · rfl
      · exact ih (i + 1) ev hev

/-!  Lemmas about `execute_request`. -/

/-- If the first invocation succeeds with `v`, `execute_request` returns
`v` after exactly one invocation, whatever the retry configuration. -/
lemma execute_request_ok_first {T : Type} (f : Fetcher)
    (act : Nat → Except ProviderError T) (v : T) (h : act 0 = Except.ok v) :
    (f.execute_request act).result = Except.ok v ∧
    (f.execute_request act).invocations = 1 := by
  cases hs : f.retry_strategy with
  | none => simp [Fetcher.execute_request, hs, Fetcher.map_err, h]
  | some strategy =>
    simp [Fetcher.execute_request, hs, Retry.spawn,
      retryGo_ok act v strategy 0 h, Fetcher.map_err]

/-- `execute_request` performs at least one invocation, and its domain
result is the `map_err`-image of the outcome of its final invocation. -/
lemma execute_request_last {T : Type} (f : Fetcher)
    (act : Nat → Except ProviderError T) :
    1 ≤ (f.execute_request act).invocations ∧
    (∀ v, (f.execute_request act).result = Except.ok v →
      act ((f.execute_request act).invocations - 1) = Except.ok v) ∧
    (∀ c, (f.execute_request act).result = Except.error c →
      ∃ e : ProviderError, c = CollectError.ProviderError e ∧
        act ((f.execute_request act).invocations - 1) = Except.error e) := by
  cases hs : f.retry_strategy with
  | none =>
    simp only [Fetcher.execute_request, hs]
    refine ⟨Nat.le_refl 1, ?_, ?_⟩
    · intro v hv
      cases h : act 0 <;> simp [Fetcher.map_err, h] at hv ⊢
      exact hv
    · intro c hc
      cases h : act 0 with
      | ok v => simp [Fetcher.map_err, h] at hc
      | error e =>
        simp [Fetcher.map_err, h] at hc
        exact ⟨e, by simp [hc], rfl⟩
  | some strategy =>
    have hl := retryGo_last act strategy 0
    simp only [Fetcher.execute_request, hs, Retry.spawn]
    refine ⟨hl.1, ?_, ?_⟩
    · intro v hv
      cases h : (retryGo act strategy 0).1 with
      | ok w =>
        have := hl.2.1 w h
        simp [Fetcher.map_err, h] at hv
        simpa [hv] using this
      | error e => simp [Fetcher.map_err, h] at hv
    · intro c hc
      cases h : (retryGo act strategy 0).1 with
      | ok w => simp [Fetcher.map_err, h] at hc
      | error e =>
        have := hl.2.2 e h
        simp [Fetcher.map_err, h] at hc
        exact ⟨e, by simp [hc], by simpa using this⟩

/-- The executor's event trace begins with the first provider invocation:
in particular, the network call is always dispatched. -/
lemma execute_request_events_head {T : Type} (f : Fetcher)
    (act : Nat → Except ProviderError T) :
    ∃ tl, (f.execute_request act).events = FetchEvent.callProvider 0 :: tl := by
  cases hs : f.retry_strategy with
  | none => exact ⟨[], by simp [Fetcher.execute_request, hs]⟩
  | some strategy =>
    obtain ⟨tl, htl⟩ := retryGo_events_head act strategy 0
    exact ⟨tl, by simp [Fetcher.execute_request, hs, Retry.spawn, htl]⟩

/-- The executor's event trace contains no admission-gate events. -/
lemma execute_request_events_no_gate {T : Type} (f : Fetcher)
    (act : Nat → Except ProviderError T) :
    ∀ ev ∈ (f.execute_request act).events, isGateEvent ev = false := by
  cases hs : f.retry_strategy with
  | none =>
    intro ev hev
    simp [Fetcher.execute_request, hs] at hev
    subst hev; rfl
  | some strategy =>
    intro ev hev
    simp only [Fetcher.execute_request, hs, Retry.spawn] at hev
    exact retryGo_events_no_gate act strategy 0 ev hev

/-!  Lemmas about the semaphore transition system. -/

/-- Updating position `i` (which holds `a`) to `b` changes `countP` by the
difference of the two indicator values. -/
lemma countP_set_some (p : TaskState → Bool) :
    ∀ (ts : List TaskState) (i : Nat) (a b : TaskState),
      ts.get? i = some a →
      (ts.set i b).countP p + (if p a then 1 else 0)
        = ts.countP p + (if p b then 1 else 0) := by
  intro ts
  induction ts with
  | nil => intro i a b h; simp at h
  | cons x xs ih =>
    intro i a b h
    cases i with
    | zero =>
      simp only [List.get?] at h
      cases h
      simp only [List.set, List.countP_cons]
      omega
    | succ i =>
      simp only [List.get?] at h
      have ihr := ih i a b h
      simp only [List.set, List.countP_cons]
      omega

/-- Tasks that have not yet entered the gate hold no permit. -/
lemma countHolding_replicate_idle (k : Nat) :
    countHolding (List.replicate k TaskState.idle) = 0 := by
  induction k with
  | zero => rfl
  | succ k ih =>
    simp only [List.replicate, countHolding, List.countP_cons]
    simp only [countHolding] at ih
    simp [ih]

/-- Each semaphore step preserves the sum of available permits and held
permits. -/
lemma gateStep_inv {N : Nat} {s s' : GateState} (hstep : GateStep s s')
    (hinv : s.avail + countHolding s.tasks = N) :
    s'.avail + countHolding s'.tasks = N := by
  cases hstep with
  | start i h =>
    have hc := countP_set_some (fun t => decide (t = TaskState.holding))
      s.tasks i TaskState.idle TaskState.waiting h
    simp only [countHolding] at hinv ⊢
    simp at hc
    omega
  | acquire i h ha =>
    have hc := countP_set_some (fun t => decide (t = TaskState.holding))
      s.tasks i TaskState.waiting TaskState.holding h
    simp only [countHolding] at hinv ⊢
    simp at hc
    omega
  | release i h =>
    have hc := countP_set_some (fun t => decide (t = TaskState.holding))
      s.tasks i TaskState.holding TaskState.done h
    simp only [countHolding] at hinv ⊢
    simp at hc
    omega

/-- The permit-count invariant holds in every state reachable from a state
satisfying it. -/
lemma gateStep_inv_reach {s0 s : GateState}
    (h : Relation.ReflTransGen GateStep s0 s) {N : Nat}
    (h0 : s0.avail + countHolding s0.tasks = N) :
    s.avail + countHolding s.tasks = N := by
  induction h with
  | refl => exact h0
  | tail _ hstep ih => exact gateStep_inv hstep ih

/-- When the executor's final invocation fails, the operation fails with
exactly that transport error wrapped in the domain error type. -/
lemma execute_request_final_error {T : Type} (f : Fetcher)
    (act : Nat → Except ProviderError T) (e : ProviderError)
    (h : act ((f.execute_request act).invocations - 1) = Except.error e) :
    (f.execute_request act).result
      = Except.error (CollectError.ProviderError e) := by
  have hl := execute_request_last f act
  cases hres : (f.execute_request act).result with
  | ok v =>
    have hok := hl.2.1 v hres
    rw [h] at hok
    cases hok
  | error c =>
    obtain ⟨e', he', hact⟩ := hl.2.2 c hres
    rw [h] at hact
    injection hact with h2
    subst h2
    rw [he']

/-- Any domain error produced by the executor is the `ProviderError`
wrapping of some transport error. -/
lemma execute_request_error_shape {T : Type} (f : Fetcher)
    (act : Nat → Except ProviderError T) (c : CollectError)
    (hc : (f.execute_request act).result = Except.error c) :
    ∃ e : ProviderError, c = CollectError.ProviderError e := by
  obtain ⟨e, he, _⟩ := (execute_request_last f act).2.2 c hc
  exact ⟨e, he⟩

/-!  Claim theorems. -/

/-- C1: with a configured retry policy of attempt budget `maxAttempts s`
(one initial attempt plus one retry per backoff duration), an operation
whose action fails on every invocation invokes the action exactly
`maxAttempts s` times and returns the transport error observed on the
final attempt, wrapped in the domain error type; earlier attempts' errors
are not reported. -/
theorem C1_retry_exhaustion {T : Type} (f : Fetcher) (s : List Nat)
    (act : Nat → Except ProviderError T) (e : Nat → ProviderError)
    (hs : f.retry_strategy = some s)
    (hfail : ∀ i, act i = Except.error (e i)) :
    (f.execute_request act).invocations = maxAttempts s ∧
    (f.execute_request act).result =
      Except.error (CollectError.ProviderError (e (maxAttempts s - 1))) := by
  have h := retryGo_allFail act e hfail s 0
  have h1 := h.1
  simp only [Nat.zero_add] at h1
  simp only [Fetcher.execute_request, hs, Retry.spawn]
  constructor
  · simpa [maxAttempts] using h.2
  · simp [Fetcher.map_err, h1, maxAttempts]

/-- C1 witness: attempt budget 3 over an always-failing provider — three
invocations, and the error of the third (index 2) comes back wrapped. -/
theorem C1_retry_exhaustion_witness :
    (retryFetcher.execute_request (retryFetcher.provider.get_logs 0)).invocations
      = 3 ∧
    (retryFetcher.execute_request (retryFetcher.provider.get_logs 0)).result
      = Except.error (CollectError.ProviderError ⟨2⟩) := by
  have h := C1_retry_exhaustion retryFetcher [10, 20]
    (retryFetcher.provider.get_logs 0) (fun i => ⟨i⟩) rfl (fun _ => rfl)
  simpa [maxAttempts] using h

/-- C4: with no retry policy configured, the executor invokes the action
exactly once; a success is returned unchanged and a transport error
propagates immediately, wrapped in the domain error type. -/
theorem C4_no_retry_single_invocation {T : Type} (f : Fetcher)
    (act : Nat → Except ProviderError T) (hs : f.retry_strategy = none) :
    (f.execute_request act).invocations = 1 ∧
    (∀ v, act 0 = Except.ok v → (f.execute_request act).result = Except.ok v) ∧
    (∀ e, act 0 = Except.error e →
      (f.execute_request act).result =
        Except.error (CollectError.ProviderError e)) := by
  refine ⟨?_, ?_, ?_⟩
  · simp [Fetcher.execute_request, hs]
  · intro v hv; simp [Fetcher.execute_request, hs, Fetcher.map_err, hv]
  · intro e he; simp [Fetcher.execute_request, hs, Fetcher.map_err, he]

/-- C4 witness: a retry-free fetcher performs one invocation and returns
the first attempt's success unchanged. -/
theorem C4_no_retry_single_invocation_witness :
    (plainFetcher.execute_request (plainFetcher.provider.get_logs 0)).invocations
      = 1 ∧
    (plainFetcher.execute_request (plainFetcher.provider.get_logs 0)).result
      = Except.ok [5] := by
  have h := C4_no_retry_single_invocation plainFetcher
    (plainFetcher.provider.get_logs 0) rfl
  exact ⟨h.1, h.2.1 [5] rfl⟩

/-- C5: with a configured retry policy of attempt budget `maxAttempts s`
and `1 ≤ j ≤ maxAttempts s`, an action that fails on attempts `1 … j-1`
and succeeds on attempt `j` returns attempt `j`'s success value after
exactly `j` invocations. -/
theorem C5_retry_eventual_success {T : Type} (f : Fetcher) (s : List Nat)
    (act : Nat → Except ProviderError T) (v : T) (j : Nat)
    (hs : f.retry_strategy = some s) (hj1 : 1 ≤ j) (hjK : j ≤ maxAttempts s)
    (hfail : ∀ m, m + 1 < j → ∃ em, act m = Except.error em)
    (hsucc : act (j - 1) = Except.ok v) :
    (f.execute_request act).result = Except.ok v ∧
    (f.execute_request act).invocations = j := by
  have hn : j - 1 ≤ s.length := by
    simp only [maxAttempts] at hjK; omega
  have hfail' : ∀ m, m < j - 1 → ∃ em, act (0 + m) = Except.error em := by
    intro m hm
    obtain ⟨em, hem⟩ := hfail m (by omega)
    exact ⟨em, by simpa using hem⟩
  have hsucc' : act (0 + (j - 1)) = Except.ok v := by simpa using hsucc
  have h := retryGo_firstSuccess act v (j - 1) s 0 hn hfail' hsucc'
  have h2 := h.2
  simp only [Fetcher.execute_request, hs, Retry.spawn]
  refine ⟨by simp [Fetcher.map_err, h.1], by omega⟩

/-- C5 witness: strategy `[10, 20]`, failure on attempt 1, success on
attempt 2 — the second attempt's value `42` is returned after exactly two
invocations. -/
theorem C5_retry_eventual_success_witness :
    (retryFetcher.execute_request
        (fun i => if i = 0 then Except.error ⟨7⟩ else Except.ok (42 : Nat))).result
      = Except.ok 42 ∧
    (retryFetcher.execute_request
        (fun i => if i = 0 then Except.error ⟨7⟩ else Except.ok (42 : Nat))).invocations
      = 2 := by
  have h := C5_retry_eventual_success retryFetcher [10, 20]
    (fun i => if i = 0 then Except.error ⟨7⟩ else Except.ok (42 : Nat)) 42 2
    rfl (by omega) (by simp [maxAttempts])
    (fun m hm => ⟨⟨7⟩, by
      have hm0 : m = 0 := by omega
      subst hm0
      rfl⟩)
    rfl
  exact h

/-- C2 counterexample: on a fetcher whose semaphore is closed, permit
acquisition fails with `AcquireError`, yet `get_logs` neither surfaces a
hard error nor skips the network call — it returns the provider's success
and its trace contains the dispatched provider invocation, because the
source binds the acquisition outcome to `_permit` without examining it. -/
theorem C2_counterexample :
    closedSemFetcher.semaphore = some ⟨2, true⟩ ∧
    Semaphore.acquire ⟨2, true⟩ = Except.error AcquireError.closed ∧
    closedSemFetcher.permit_request.1
      = some (Except.error AcquireError.closed) ∧
    (closedSemFetcher.get_logs 0).result = Except.ok [5] ∧
    FetchEvent.callProvider 0 ∈ (closedSemFetcher.get_logs 0).events := by
  exact ⟨rfl, rfl, rfl, rfl, by decide⟩

/-- C2 (amended): when the semaphore is closed, permit acquisition returns
an `AcquireError`, but the operation discards it: the operation's result
and invocation count are exactly those of handing the action to the
executor, and the network call is still dispatched.  The acquisition
failure is never surfaced to the caller. -/
theorem C2_closed_semaphore_ignored (f : Fetcher) (s : Semaphore)
    (fl : Filter) (hs : f.semaphore = some s) (hc : s.closed = true) :
    f.permit_request.1 = some (Except.error AcquireError.closed) ∧
    (f.get_logs fl).result
      = (f.execute_request (f.provider.get_logs fl)).result ∧
    (f.get_logs fl).invocations
      = (f.execute_request (f.provider.get_logs fl)).invocations ∧
    ∃ tl, (f.get_logs fl).events
      = f.permit_request.2 ++ FetchEvent.callProvider 0 :: tl := by
  refine ⟨?_, rfl, rfl, ?_⟩
  · simp [Fetcher.permit_request, hs, Semaphore.acquire, hc]
  · obtain ⟨tl, htl⟩ :=
      execute_request_events_head f (f.provider.get_logs fl)
    exact ⟨tl, by simp [Fetcher.get_logs, Fetcher.opOutcome, htl]⟩

/-- C2 witness: the amended behaviour evaluated on the concrete
closed-semaphore fetcher. -/
theorem C2_closed_semaphore_ignored_witness :
    closedSemFetcher.permit_request.1
      = some (Except.error AcquireError.closed) ∧
    (closedSemFetcher.get_logs 1).result
      = (closedSemFetcher.execute_request
          (closedSemFetcher.provider.get_logs 1)).result := by
  have h := C2_closed_semaphore_ignored closedSemFetcher ⟨2, true⟩ 1 rfl rfl
  exact ⟨h.1, h.2.1⟩

/-- C3: `get_block_number` is the single operation exempt from the
admission gate — its event trace contains no gate event — while each of
the other ten operations performs the full gate acquisition first: its
event trace begins with `permit_request`'s trace. -/
theorem C3_gate_exemption (f : Fetcher) (fl : Filter) (bn : Nat)
    (bnum : BlockNumber) (txh : TxHash) (tts : List TraceType) :
    (∀ ev ∈ (f.get_block_number).events, isGateEvent ev = false) ∧
    (∃ r, (f.get_logs fl).events = f.permit_request.2 ++ r) ∧
    (∃ r, (f.trace_replay_block_transactions bnum tts).events
      = f.permit_request.2 ++ r) ∧
    (∃ r, (f.trace_replay_transaction txh tts).events
      = f.permit_request.2 ++ r) ∧
    (∃ r, (f.get_transaction txh).events = f.permit_request.2 ++ r) ∧
    (∃ r, (f.get_transaction_receipt txh).events = f.permit_request.2 ++ r) ∧
    (∃ r, (f.get_block bn).events = f.permit_request.2 ++ r) ∧
    (∃ r, (f.get_block_with_txs bn).events = f.permit_request.2 ++ r) ∧
    (∃ r, (f.get_block_receipts bn).events = f.permit_request.2 ++ r) ∧
    (∃ r, (f.trace_block bnum).events = f.permit_request.2 ++ r) ∧
    (∃ r, (f.trace_transaction txh).events = f.permit_request.2 ++ r) := by
  refine ⟨?_, ⟨_, rfl⟩, ⟨_, rfl⟩, ⟨_, rfl⟩, ⟨_, rfl⟩, ⟨_, rfl⟩, ⟨_, rfl⟩,
    ⟨_, rfl⟩, ⟨_, rfl⟩, ⟨_, rfl⟩, ⟨_, rfl⟩⟩
  intro ev hev
  exact execute_request_events_no_gate f f.provider.get_block_number ev hev

/-- C3 witness: on a fully configured fetcher, the provider-call event of
`get_block_number`'s trace is indeed not a gate event. -/
theorem C3_gate_exemption_witness :
    isGateEvent (FetchEvent.callProvider 0) = false := by
  have h := C3_gate_exemption plainFetcher 0 0 0 0 []
  exact h.1 (FetchEvent.callProvider 0) (by decide)

/-- C6: `permit_request` performs its two sub-gates in a fixed order —
semaphore acquisition first, rate-limiter wait second — each only when the
corresponding limiter is configured; with neither configured it is a
no-op producing no events. -/
theorem C6_gate_order (f : Fetcher) :
    (∀ s l, f.semaphore = some s → f.rate_limiter = some l →
      f.permit_request.2
        = [FetchEvent.acquireSem, FetchEvent.waitRateLimiter]) ∧
    (∀ s, f.semaphore = some s → f.rate_limiter = none →
      f.permit_request.2 = [FetchEvent.acquireSem]) ∧
    (∀ l, f.semaphore = none → f.rate_limiter = some l →
      f.permit_request.2 = [FetchEvent.waitRateLimiter]) ∧
    (f.semaphore = none → f.rate_limiter = none →
      f.permit_request.2 = []) := by
  refine ⟨?_, ?_, ?_, ?_⟩
  · intro s l hs hl; simp [Fetcher.permit_request, hs, hl]
  · intro s hs hl; simp [Fetcher.permit_request, hs, hl]
  · intro l hs hl; simp [Fetcher.permit_request, hs, hl]
  · intro hs hl; simp [Fetcher.permit_request, hs, hl]

/-- C6 witness: with both limiters configured the gate trace is exactly
semaphore acquisition followed by the rate-limiter wait. -/
theorem C6_gate_order_witness :
    plainFetcher.permit_request.2
      = [FetchEvent.acquireSem, FetchEvent.waitRateLimiter] := by
  exact (C6_gate_order plainFetcher).1 ⟨2, false⟩ ⟨100⟩ rfl rfl

/-- C7: every operation surfaces failures in the single domain error
shape: any error result is the `ProviderError` wrapping of some transport
error; for the executor, the wrapped error is exactly the one observed on
the final invocation (no aggregation of earlier errors), and conversely a
failing final invocation is never silently dropped — it makes the
operation fail with that wrapped error. -/
theorem C7_uniform_error_shape {T : Type} (f : Fetcher) (fl : Filter)
    (bn : Nat) (bnum : BlockNumber) (txh : TxHash) (tts : List TraceType)
    (act : Nat → Except ProviderError T) :
    (∀ c, (f.get_logs fl).result = Except.error c →
      ∃ e, c = CollectError.ProviderError e) ∧
    (∀ c, (f.trace_replay_block_transactions bnum tts).result
        = Except.error c → ∃ e, c = CollectError.ProviderError e) ∧
    (∀ c, (f.trace_replay_transaction txh tts).result = Except.error c →
      ∃ e, c = CollectError.ProviderError e) ∧
    (∀ c, (f.get_transaction txh).result = Except.error c →
      ∃ e, c = CollectError.ProviderError e) ∧
    (∀ c, (f.get_transaction_receipt txh).result = Except.error c →
      ∃ e, c = CollectError.ProviderError e) ∧
    (∀ c, (f.get_block bn).result = Except.error c →
      ∃ e, c = CollectError.ProviderError e) ∧
    (∀ c, (f.get_block_with_txs bn).result = Except.error c →
      ∃ e, c = CollectError.ProviderError e) ∧
    (∀ c, (f.get_block_receipts bn).result = Except.error c →
      ∃ e, c = CollectError.ProviderError e) ∧
    (∀ c, (f.trace_block bnum).result = Except.error c →
      ∃ e, c = CollectError.ProviderError e) ∧
    (∀ c, (f.trace_transaction txh).result = Except.error c →
      ∃ e, c = CollectError.ProviderError e) ∧
    (∀ c, (f.get_block_number).result = Except.error c →
      ∃ e, c = CollectError.ProviderError e) ∧
    (∀ c, (f.execute_request act).result = Except.error c →
      ∃ e, c = CollectError.ProviderError e ∧
        act ((f.execute_request act).invocations - 1) = Except.error e) ∧
    (∀ e, act ((f.execute_request act).invocations - 1) = Except.error e →
      (f.execute_request act).result
        = Except.error (CollectError.ProviderError e)) := by
  refine ⟨fun c hc => execute_request_error_shape f _ c hc,
    fun c hc => execute_request_error_shape f _ c hc,
    fun c hc => execute_request_error_shape f _ c hc,
    fun c hc => execute_request_error_shape f _ c hc,
    fun c hc => execute_request_error_shape f _ c hc,
    fun c hc => execute_request_error_shape f _ c hc,
    fun c hc => execute_request_error_shape f _ c hc,
    fun c hc => execute_request_error_shape f _ c hc,
    fun c hc => execute_request_error_shape f _ c hc,
    fun c hc => execute_request_error_shape f _ c hc,
    fun c hc => execute_request_error_shape f _ c hc,
    fun c hc => (execute_request_last f act).2.2 c hc,
    fun e he => execute_request_final_error f act e he⟩

/-- C7 witness: the concrete exhausted-retry failure is wrapped in the
`ProviderError` domain variant. -/
theorem C7_uniform_error_shape_witness :
    ∃ e : ProviderError,
      CollectError.ProviderError ⟨2⟩ = CollectError.ProviderError e := by
  have h := C7_uniform_error_shape retryFetcher 0 0 0 0 []
    (retryFetcher.provider.get_logs 0)
  exact h.1 (CollectError.ProviderError ⟨2⟩) rfl

/-- C8: for the four lookup operations, a first-attempt transport success
is passed through unchanged; in particular a non-existent block or
transaction (`Ok(None)` from the transport) yields a successful `none`
result, not a domain error. -/
theorem C8_not_found_passthrough (f : Fetcher) (bn : Nat) (txh : TxHash) :
    (∀ ob, f.provider.get_block bn 0 = Except.ok ob →
      (f.get_block bn).result = Except.ok ob) ∧
    (∀ ob, f.provider.get_block_with_txs bn 0 = Except.ok ob →
      (f.get_block_with_txs bn).result = Except.ok ob) ∧
    (∀ ot, f.provider.get_transaction txh 0 = Except.ok ot →
      (f.get_transaction txh).result = Except.ok ot) ∧
    (∀ orc, f.provider.get_transaction_receipt txh 0 = Except.ok orc →
      (f.get_transaction_receipt txh).result = Except.ok orc) := by
  refine ⟨?_, ?_, ?_, ?_⟩
  · intro x hx; exact (execute_request_ok_first f _ x hx).1
  · intro x hx; exact (execute_request_ok_first f _ x hx).1
  · intro x hx; exact (execute_request_ok_first f _ x hx).1
  · intro x hx; exact (execute_request_ok_first f _ x hx).1

/-- C8 witness: a lookup of a non-existent block returns `Ok(none)`. -/
theorem C8_not_found_passthrough_witness :
    (plainFetcher.get_block 7).result = Except.ok none := by
  exact (C8_not_found_passthrough plainFetcher 7 0).1 none rfl

/-- C9: for a semaphore configured with `N` permits, in every state
reachable by any interleaving of concurrent operations, at most `N` tasks
hold a permit simultaneously. -/
theorem C9_bounded_concurrency (N k : Nat) (s : GateState)
    (h : Relation.ReflTransGen GateStep (gateInit N k) s) :
    countHolding s.tasks ≤ N := by
  have h0 : (gateInit N k).avail + countHolding (gateInit N k).tasks = N := by
    simp [gateInit, countHolding_replicate_idle]
  have hinv := gateStep_inv_reach h h0
  omega

/-- C9 witness: one task starts, acquires the single permit, and the bound
holds in the reached state. -/
theorem C9_bounded_concurrency_witness :
    countHolding [TaskState.holding] ≤ 1 := by
  have h1 : GateStep (gateInit 1 1) ⟨1, [TaskState.waiting]⟩ :=
    GateStep.start (gateInit 1 1) 0 rfl
  have h2 : GateStep ⟨1, [TaskState.waiting]⟩ ⟨0, [TaskState.holding]⟩ :=
    GateStep.acquire ⟨1, [TaskState.waiting]⟩ 0 rfl (by decide)
  exact C9_bounded_concurrency 1 1 ⟨0, [TaskState.holding]⟩
    (Relation.ReflTransGen.tail
      (Relation.ReflTransGen.tail Relation.ReflTransGen.refl h1) h2)

/-- C10: no operation mutates the fetcher's configuration — every
operation hands back the fetcher with provider, semaphore, rate limiter
and retry strategy unchanged (the strategy is cloned per execution), so a
subsequent call sees the same stored strategy and behaves identically. -/
theorem C10_no_config_mutation (f : Fetcher) (fl : Filter) (bn : Nat)
    (bnum : BlockNumber) (txh : TxHash) (tts : List TraceType) :
    (f.get_logs fl).fetcher = f ∧
    (f.trace_replay_block_transactions bnum tts).fetcher = f ∧
    (f.trace_replay_transaction txh tts).fetcher = f ∧
    (f.get_transaction txh).fetcher = f ∧
    (f.get_transaction_receipt txh).fetcher = f ∧
    (f.get_block bn).fetcher = f ∧
    (f.get_block_with_txs bn).fetcher = f ∧
    (f.get_block_receipts bn).fetcher = f ∧
    (f.trace_block bnum).fetcher = f ∧
    (f.trace_transaction txh).fetcher = f ∧
    (f.get_block_number).fetcher = f ∧
    (f.get_logs fl).fetcher.retry_strategy = f.retry_strategy ∧
    (f.get_logs fl).fetcher.get_logs fl = f.get_logs fl :=
  ⟨rfl, rfl, rfl, rfl, rfl, rfl, rfl, rfl, rfl, rfl, rfl, rfl, rfl⟩

end Cryo
